import Mathlib

/-!
Verification of the BoletasQR QR-ticket scanning widget
(`src/components/QRScanner.ts`).

The TypeScript module is a UI controller wiring a camera video stream, a
barcode decode loop, a duplicate-read throttle, and a two-step network
exchange (validate → operator confirm/deny → apply).  This file gives a
shallow embedding of its pure helpers (`makeScanMemory`, `escapeHtml`,
`chooseBackCamera`, `explain`, the HTML templates) and an event-step
semantics of the controller (`setupQRScanner`'s handlers), where each
`async` handler is taken as one atomic step of the machine: the outcome of
each awaited network call or camera start is carried on the event itself,
so a step maps a controller state and an event to the next state together
with the list of observable actions (HTTP posts, renders, camera
pause/resume) the handler performs, in order.
-/

namespace BoletasQR

/-! ### Scan memory (`makeScanMemory`, lines 33–45)

The JS `Map<string, number>` is embedded as an insertion-ordered
association list; `Map.set` updates in place when the key exists and
appends otherwise, `Map.get(value) ?? 0` defaults to `0`.  `Date.now()`
timestamps are naturals; the JS subtraction `now - t` is over numbers, so
it is taken in `Int`. -/

abbrev ScanMem := List (String × Nat)

/-- Lookup in the association list, as `Map.get`. -/
def lookupTime : ScanMem → String → Option Nat
  | [], _ => none
  | (k, t) :: rest, v => if k = v then some t else lookupTime rest v

/-- Update-or-append, as `Map.set` (insertion order preserved). -/
def setKey : ScanMem → String → Nat → ScanMem
  | [], v, now => [(v, now)]
  | (k, t) :: rest, v, now =>
      if k = v then (v, now) :: rest else (k, t) :: setKey rest v now

/-- Function `seenRecently` from `makeScanMemory`: reads the last-seen time
(defaulting to `0`), answers `true` without touching the map when the
value was seen less than `ttlMs` ago, and otherwise records `now` and
answers `false`.  Returns the answer together with the updated map. -/
def seenRecently (ttlMs : Nat) (mem : ScanMem) (value : String) (now : Nat) :
    Bool × ScanMem :=
  let t := (lookupTime mem value).getD 0
  if (now : Int) - (t : Int) < (ttlMs : Int) then (true, mem)
  else (false, setKey mem value now)

/-- Function `clear` from `makeScanMemory`: `last.clear()`. -/
def clearMemory (_mem : ScanMem) : ScanMem := []

/-! ### `escapeHtml` (lines 47–53)

Each `replaceAll` has a single-character search string, so it is exactly a
character-wise flat-map over the string's characters; the five
replacements are composed in the source's order. -/

/-- Model of `s.replaceAll(c, rep)` for a one-character search string `c`. -/
def replAll (c : Char) (rep : List Char) (l : List Char) : List Char :=
  l.flatMap (fun a => if a = c then rep else [a])

def escapeHtmlList (l : List Char) : List Char :=
  replAll '\'' ("&#039;".toList)
    (replAll '"' ("&quot;".toList)
      (replAll '>' ("&gt;".toList)
        (replAll '<' ("&lt;".toList)
          (replAll '&' ("&amp;".toList) l))))

def escapeHtml (s : String) : String := String.mk (escapeHtmlList s.toList)

/-! ### `chooseBackCamera` (lines 60–68) -/

structure MediaDeviceInfo where
  label : Option String
  deviceId : String
deriving DecidableEq, Repr

/-- Substring test, used to embed the regular-expression test
`/back|trasera|rear|facing back/.test(s)`. -/
def isSubstring (needle : List Char) : List Char → Bool
  | [] => needle.isEmpty
  | c :: rest => needle.isPrefixOf (c :: rest) || isSubstring needle rest

/-- The regex `/back|trasera|rear|facing back/` as a Bool test. -/
def backPattern (s : String) : Bool :=
  isSubstring ("back".toList) s.toList || isSubstring ("trasera".toList) s.toList ||
    isSubstring ("rear".toList) s.toList || isSubstring ("facing back".toList) s.toList

/-- Helper `lower` from the source: `(s || "").toLowerCase()`, with a `null` or
missing label read as the empty string. -/
def lowerOrEmpty (s : Option String) : String :=
  String.mk ((s.getD "").toList.map Char.toLower)

/-- Function `chooseBackCamera`:
`devices.find(matches)?.deviceId ?? devices[0]?.deviceId ?? undefined`. -/
def chooseBackCamera (devices : List MediaDeviceInfo) : Option String :=
  ((devices.find? (fun d => backPattern (lowerOrEmpty d.label))).map
      (fun d => d.deviceId)).orElse
    (fun _ => (devices.head?).map (fun d => d.deviceId))

/-- First device whose (lowercased, null-defaulted) label matches the
back-camera pattern — written from the claim's words, to be compared with
`chooseBackCamera`. -/
def firstBackMatch : List MediaDeviceInfo → Option MediaDeviceInfo
  | [] => none
  | d :: rest =>
      if backPattern (lowerOrEmpty d.label) then some d else firstBackMatch rest

/-! ### Analysis helpers for `escapeHtml` -/

/-- Per-character escape table; the composed `replaceAll` chain of
`escapeHtml` is proved equal to one pass of this table. -/
def escChar (c : Char) : List Char :=
  if c = '&' then ("&amp;".toList)
  else if c = '<' then ("&lt;".toList)
  else if c = '>' then ("&gt;".toList)
  else if c = '"' then ("&quot;".toList)
  else if c = '\'' then ("&#039;".toList)
  else [c]

/-- Characters that could open markup or break out of an attribute. -/
def forbiddenChar (c : Char) : Bool := c == '<' || c == '>' || c == '"' || c == '\''

/-- Every ampersand in the list starts one of the five entities
`&amp; &lt; &gt; &quot; &#039;`. -/
def ampOk : List Char → Bool
  | [] => true
  | c :: rest =>
      if c = '&' then
        if rest.take 4 = ['a', 'm', 'p', ';'] then ampOk (rest.drop 4)
        else if rest.take 3 = ['l', 't', ';'] then ampOk (rest.drop 3)
        else if rest.take 3 = ['g', 't', ';'] then ampOk (rest.drop 3)
        else if rest.take 5 = ['q', 'u', 'o', 't', ';'] then ampOk (rest.drop 5)
        else if rest.take 5 = ['#', '0', '3', '9', ';'] then ampOk (rest.drop 5)
        else false
      else ampOk rest
termination_by l => l.length
decreasing_by
  all_goals simp [List.length_drop]
  all_goals omega

/-! ### Request/response contract and errors -/

/-- Type `ScanRequest` (lines 15–19). -/
structure ScanRequest where
  code : String
  operatorId : Nat
  validateOnly : Bool
deriving DecidableEq, Repr

/-- Type `ScanResponse` (lines 21–30); `fechaUso : string | null`. -/
structure ScanResponse where
  codigo : Int
  mensaje : String
  code : String
  estado : Bool
  fechaUso : Option String
  evento : String
  fechaEvento : String
  titular : String
deriving DecidableEq, Repr

/-- A thrown JS error as the handlers inspect it: `e?.name`, `e?.message`. -/
structure JsError where
  name : String
  message : String
deriving DecidableEq, Repr

/-- Function `explain` (lines 70–81); `e?.message || "..."` treats the empty message
as falsy. -/
def explain (e : JsError) : String :=
  if e.name = "NotAllowedError" ∨ e.name = "SecurityError" then
    "Permiso denegado o contexto no seguro (usa https o localhost)."
  else if e.name = "NotFoundError" then
    "No se encontró una cámara disponible."
  else if e.name = "NotReadableError" then
    "La cámara está siendo usada por otra aplicación."
  else if e.name = "OverconstrainedError" then
    "El deviceId/constraint no coincide con ninguna cámara."
  else if e.message ≠ "" then e.message
  else "Error desconocido al iniciar la cámara."

/-! ### HTML fragments rendered by the controller -/

/-- Details card of a valid ticket (lines 234–240). -/
def validDetailsHtml (data : ScanResponse) : String :=
  "<div class=\"card mt\">\n                    <div class=\"row\"><strong>Evento:</strong>&nbsp;"
    ++ escapeHtml data.evento
    ++ "</div>\n                    <div class=\"row\"><strong>Fecha evento:</strong>&nbsp;"
    ++ escapeHtml data.fechaEvento
    ++ "</div>\n                    <div class=\"row\"><strong>Titular:</strong>&nbsp;"
    ++ escapeHtml data.titular
    ++ "</div>\n                    <div class=\"row\"><strong>Código:</strong>&nbsp;"
    ++ escapeHtml data.code
    ++ "</div>\n                    <div class=\"row\"><strong>Mensaje:</strong>&nbsp;"
    ++ escapeHtml data.mensaje
    ++ "</div>\n                </div>"

/-- Confirm-panel question (line 247). -/
def confirmHtml (data : ScanResponse) : String :=
  "<div>¿Aprobar ingreso para <strong>" ++ escapeHtml data.titular
    ++ "</strong> al evento <strong>" ++ escapeHtml data.evento ++ "</strong>?</div>"

/-- Details card after a successful apply (lines 257–260). -/
def appliedDetailsHtml (applied : ScanResponse) : String :=
  "<div class=\"card mt\">\n                                <div class=\"row\"><strong>Mensaje:</strong>&nbsp;"
    ++ escapeHtml applied.mensaje
    ++ "</div>\n                                <div class=\"row\"><strong>Fecha uso:</strong>&nbsp;"
    ++ escapeHtml (applied.fechaUso.getD "")
    ++ "</div>\n                                </div>"

/-- Details shown for an invalid ticket (lines 283–284); the guard
`data.fechaUso ?` is JS truthiness, so both `null` and `""` suppress the
"Usada" line. -/
def invalidDetailsHtml (data : ScanResponse) : String :=
  "<div class=\"badge err\">Código: " ++ escapeHtml data.code ++ "</div>\n                "
    ++ (match data.fechaUso with
        | some f => if f = "" then "" else
            "<div class=\"small mt\">Usada: " ++ escapeHtml f ++ "</div>"
        | none => "")

/-! ### Controller state

One record per mutable piece the handlers read or write: the status line,
the details pane, the confirm panel, button disabled flags, the camera
resources (`controls`, `currentStream`, `video.srcObject`, the CSS
visibility of the video), the abort controller, the scan memory, and the
code currently wired to `btnApprove.onclick` / `btnDeny.onclick` (set in
the valid-validate branch; the source never rewires the handlers back to
nothing, so the slot stays occupied after resolution while the hidden
panel makes the buttons unreachable). -/

inductive StatusKind | ok | warn | err | info
deriving DecidableEq, Repr

structure UIState where
  statusKind : StatusKind
  statusMsg : String
  detailsHtml : String
  confirmPanelShown : Bool
  confirmInfoHtml : String
  approveDisabled : Bool
  denyDisabled : Bool
  startBtnDisabled : Bool
  stopBtnDisabled : Bool
  cameraVisible : Bool
deriving DecidableEq, Repr

structure ScannerState where
  ui : UIState
  memory : ScanMem
  controlsActive : Bool
  streamActive : Bool
  videoSrcObject : Bool
  aborterActive : Bool
  wiredCode : Option String
deriving DecidableEq, Repr

/-- Observable actions a handler performs, in program order. -/
inductive Action
  | suppressCheck (value : String) (suppressed : Bool)
  | beep
  | httpPost (req : ScanRequest)
  | renderStatus (kind : StatusKind) (msg : String)
  | renderDetails (html : String)
  | showPanel (html : String)
  | hidePanel
  | pauseCamera
  | resumeCamera
deriving DecidableEq, Repr

/-- Function `showConfirm` (lines 386–389). -/
def showConfirm (s : ScannerState) (html : String) : ScannerState :=
  { s with ui := { s.ui with confirmInfoHtml := html, confirmPanelShown := true } }

/-- Function `hideConfirm` (lines 390–393). -/
def hideConfirm (s : ScannerState) : ScannerState :=
  { s with ui := { s.ui with confirmPanelShown := false, confirmInfoHtml := "" } }

/-- Function `pauseAndHideCamera` (lines 113–130): abort, stop decode controls,
stop every stream track, null the video `srcObject`, hide the video,
re-enable the start button, disable the stop button, and set the status. -/
def pauseAndHideCamera (s : ScannerState) : ScannerState × List Action :=
  ({ s with
      aborterActive := false
      controlsActive := false
      streamActive := false
      videoSrcObject := false
      ui := { s.ui with
              cameraVisible := false
              startBtnDisabled := false
              stopBtnDisabled := true
              statusKind := StatusKind.info
              statusMsg := "Cámara en pausa." } },
   [Action.pauseCamera, Action.renderStatus StatusKind.info "Cámara en pausa."])

/-- Function `start` (lines 297–328); the camera-start outcome (success, or the
error `decodeFromVideoDevice`/`getUserMedia` throws) is the event's datum. -/
def startCam (s : ScannerState) (outcome : Except JsError Unit) :
    ScannerState × List Action :=
  if s.controlsActive then (s, [])
  else
    let s1 := { s with
                aborterActive := true
                ui := { s.ui with
                        statusKind := StatusKind.info
                        statusMsg := "Iniciando cámara..." } }
    match outcome with
    | Except.ok _ =>
        ({ s1 with
            controlsActive := true
            streamActive := true
            videoSrcObject := true
            ui := { s1.ui with
                    statusKind := StatusKind.ok
                    statusMsg := "Escaneando... apunta el QR"
                    startBtnDisabled := true
                    stopBtnDisabled := false } },
         [Action.renderStatus StatusKind.info "Iniciando cámara...", Action.resumeCamera,
          Action.renderStatus StatusKind.ok "Escaneando... apunta el QR"])
    | Except.error e =>
        ({ s1 with
            ui := { s1.ui with
                    statusKind := StatusKind.err
                    statusMsg := "No se pudo iniciar la cámara. " ++ explain e } },
         [Action.renderStatus StatusKind.info "Iniciando cámara...",
          Action.renderStatus StatusKind.err
            ("No se pudo iniciar la cámara. " ++ explain e)])

/-- Function `showCameraAndRestart` (lines 132–135). -/
def showCameraAndRestart (s : ScannerState) (outcome : Except JsError Unit) :
    ScannerState × List Action :=
  startCam { s with ui := { s.ui with cameraVisible := true } } outcome

/-- Function `stop` (lines 330–350). -/
def stopCam (s : ScannerState) : ScannerState × List Action :=
  ({ s with
      aborterActive := false
      controlsActive := false
      streamActive := false
      videoSrcObject := false
      ui := { s.ui with
              statusKind := StatusKind.info
              statusMsg := "Cámara detenida."
              startBtnDisabled := false
              stopBtnDisabled := true } },
   [Action.pauseCamera, Action.renderStatus StatusKind.info "Cámara detenida."])

/-- Function `validateCode` (lines 223–294), the handler body after the decoded
value passed the throttle.  The awaited validate call's outcome is the
argument `resp`; on `AbortError` the handler returns with no further UI
change (line 289). -/
def validateCode (s : ScannerState) (code : String)
    (resp : Except JsError ScanResponse) : ScannerState × List Action :=
  let s0 := { s with ui := { s.ui with
      statusKind := StatusKind.info, statusMsg := "Validando boleta...",
      confirmPanelShown := false, confirmInfoHtml := "", detailsHtml := "" } }
  let pre := [Action.renderStatus StatusKind.info "Validando boleta...",
              Action.hidePanel, Action.renderDetails "",
              Action.httpPost { code := code, operatorId := 1, validateOnly := true }]
  match resp with
  | Except.ok data =>
      if data.codigo == 0 && data.estado then
        let s1 := { s0 with ui := { s0.ui with
            statusKind := StatusKind.ok, statusMsg := "✅ Válida. Confirma ingreso.",
            detailsHtml := validDetailsHtml data } }
        let p := pauseAndHideCamera s1
        let s2 := showConfirm p.fst (confirmHtml data)
        ({ s2 with wiredCode := some code },
         pre ++ [Action.renderStatus StatusKind.ok "✅ Válida. Confirma ingreso.",
                 Action.renderDetails (validDetailsHtml data), Action.beep]
             ++ p.snd ++ [Action.showPanel (confirmHtml data)])
      else
        ({ s0 with ui := { s0.ui with
             statusKind := StatusKind.err,
             statusMsg := "⛔ No válida: " ++ escapeHtml data.mensaje,
             detailsHtml := invalidDetailsHtml data } },
         pre ++ [Action.renderStatus StatusKind.err
                   ("⛔ No válida: " ++ escapeHtml data.mensaje),
                 Action.renderDetails (invalidDetailsHtml data), Action.hidePanel])
  | Except.error e =>
      if e.name == "AbortError" then (s0, pre)
      else
        ({ s0 with ui := { s0.ui with
             statusKind := StatusKind.err,
             statusMsg := "Falló la conexión a la API. " ++ e.message,
             detailsHtml := "" } },
         pre ++ [Action.renderStatus StatusKind.err
                   ("Falló la conexión a la API. " ++ e.message),
                 Action.renderDetails "", Action.hidePanel])

/-- Callback `resultCb` (lines 305–312): ignore empty results, consult the throttle
memory, and on a fresh value beep and run `validateCode`. -/
def handleDecoded (s : ScannerState) (value : Option String) (now : Nat)
    (resp : Except JsError ScanResponse) : ScannerState × List Action :=
  match value with
  | none => (s, [])
  | some v =>
      let r := seenRecently 4000 s.memory v now
      let s1 := { s with memory := r.snd }
      if r.fst then (s1, [Action.suppressCheck v true])
      else
        let vr := validateCode s1 v resp
        (vr.fst, Action.suppressCheck v false :: Action.beep :: vr.snd)

/-- Handler `btnApprove.onclick` as wired in the valid-validate branch
(lines 250–272).  The click can only happen while the confirm panel is
displayed and the button enabled; the apply call's outcome is `resp`, the
camera-restart outcome of the `finally` block is `restart`. -/
def handleApprove (s : ScannerState) (resp : Except JsError ScanResponse)
    (restart : Except JsError Unit) : ScannerState × List Action :=
  match s.wiredCode with
  | none => (s, [])
  | some code =>
      if s.ui.confirmPanelShown && !s.ui.approveDisabled then
        let s0 := { s with
                    ui := { s.ui with
                            approveDisabled := true
                            denyDisabled := true
                            statusKind := StatusKind.info
                            statusMsg := "Aplicando ingreso..." } }
        let req : ScanRequest := { code := code, operatorId := 1, validateOnly := false }
        let tryOut : ScannerState × List Action :=
          match resp with
          | Except.ok applied =>
              if applied.codigo == 0 && applied.estado then
                ({ s0 with
                    ui := { s0.ui with
                            statusKind := StatusKind.ok
                            statusMsg := "🎟️ Boleta usada correctamente."
                            detailsHtml := appliedDetailsHtml applied } },
                 [Action.renderStatus StatusKind.ok "🎟️ Boleta usada correctamente.",
                  Action.renderDetails (appliedDetailsHtml applied)])
              else
                ({ s0 with
                    ui := { s0.ui with
                            statusKind := StatusKind.err
                            statusMsg := "⛔ No se pudo usar: "
                              ++ escapeHtml applied.mensaje } },
                 [Action.renderStatus StatusKind.err
                    ("⛔ No se pudo usar: " ++ escapeHtml applied.mensaje)])
          | Except.error e =>
              if e.name == "AbortError" then (s0, [])
              else
                ({ s0 with
                    ui := { s0.ui with
                            statusKind := StatusKind.err
                            statusMsg := "Error al aplicar: " ++ e.message } },
                 [Action.renderStatus StatusKind.err ("Error al aplicar: " ++ e.message)])
        let s1 := hideConfirm tryOut.fst
        let s2 := { s1 with
                    ui := { s1.ui with
                            approveDisabled := false
                            denyDisabled := false } }
        let r := showCameraAndRestart s2 restart
        (r.fst,
         Action.renderStatus StatusKind.info "Aplicando ingreso..."
           :: Action.httpPost req :: tryOut.snd ++ [Action.hidePanel] ++ r.snd)
      else (s, [])

/-- Handler `btnDeny.onclick` as wired in the valid-validate branch
(lines 274–278). -/
def handleDeny (s : ScannerState) (restart : Except JsError Unit) :
    ScannerState × List Action :=
  match s.wiredCode with
  | none => (s, [])
  | some _ =>
      if s.ui.confirmPanelShown && !s.ui.denyDisabled then
        let s1 := hideConfirm s
        let s2 := { s1 with
                    ui := { s1.ui with
                            statusKind := StatusKind.info
                            statusMsg := "Ingreso denegado (no se consumió la boleta)." } }
        let r := showCameraAndRestart s2 restart
        (r.fst,
         Action.hidePanel
           :: Action.renderStatus StatusKind.info
                "Ingreso denegado (no se consumió la boleta)." :: r.snd)
      else (s, [])

/-- Handler `btnClear.onclick` (lines 217–221). -/
def handleClear (s : ScannerState) : ScannerState × List Action :=
  let s1 := hideConfirm s
  ({ s1 with
      ui := { s1.ui with
              detailsHtml := ""
              statusKind := StatusKind.info
              statusMsg := "Listo" } },
   [Action.hidePanel, Action.renderDetails "",
    Action.renderStatus StatusKind.info "Listo"])

/-- The externally triggered events.  Each awaited outcome inside the
corresponding handler is carried on the event. -/
inductive Event
  | startClick (outcome : Except JsError Unit)
  | stopClick
  | deviceChange (outcome : Except JsError Unit)
  | clearClick
  | decoded (value : Option String) (now : Nat) (resp : Except JsError ScanResponse)
  | approveClick (resp : Except JsError ScanResponse) (restart : Except JsError Unit)
  | denyClick (restart : Except JsError Unit)
  | destroyCall

/-- One atomic handler execution.  Disabled buttons cannot be clicked, the
decode loop produces results only while the decode controls are live, and
the approve/deny buttons exist to the operator only while the confirm
panel is displayed. -/
def step (s : ScannerState) (e : Event) : ScannerState × List Action :=
  match e with
  | Event.startClick outcome =>
      if s.ui.startBtnDisabled then (s, []) else startCam s outcome
  | Event.stopClick =>
      if s.ui.stopBtnDisabled then (s, []) else stopCam s
  | Event.deviceChange outcome =>
      let r := stopCam s
      let r2 := startCam r.fst outcome
      (r2.fst, r.snd ++ r2.snd)
  | Event.clearClick => handleClear s
  | Event.decoded value now resp =>
      if s.controlsActive then handleDecoded s value now resp else (s, [])
  | Event.approveClick resp restart => handleApprove s resp restart
  | Event.denyClick restart => handleDeny s restart
  | Event.destroyCall => stopCam { s with memory := clearMemory s.memory }

/-- State right after `setupQRScanner` wires the page: nothing pending,
camera not yet started. -/
def initState : ScannerState :=
  { ui := { statusKind := StatusKind.info, statusMsg := "", detailsHtml := "",
            confirmPanelShown := false, confirmInfoHtml := "",
            approveDisabled := false, denyDisabled := false,
            startBtnDisabled := false, stopBtnDisabled := false, cameraVisible := true },
    memory := [], controlsActive := false, streamActive := false,
    videoSrcObject := false, aborterActive := false, wiredCode := none }

/-- States the controller can reach from the initial state. -/
inductive Reachable : ScannerState → Prop
  | init : Reachable initState
  | step (s : ScannerState) (e : Event) : Reachable s → Reachable (step s e).fst

/-- States reachable when the operator never presses the start button and
never switches camera device while a confirmation is pending. -/
inductive ReachableNoRestart : ScannerState → Prop
  | init : ReachableNoRestart initState
  | step (s : ScannerState) (e : Event) : ReachableNoRestart s →
      (s.ui.confirmPanelShown = true →
        (∀ o, e ≠ Event.startClick o) ∧ (∀ o, e ≠ Event.deviceChange o)) →
      ReachableNoRestart (step s e).fst

/-- The pending-confirmation invariant: while the confirm panel is
displayed, the decode controls are stopped, the media-stream tracks are
stopped, the video element's `srcObject` is null, and exactly one code
(the single `wiredCode` slot) is awaiting the decision. -/
def cameraPausedInv (s : ScannerState) : Prop :=
  s.ui.confirmPanelShown = true →
    s.controlsActive = false ∧ s.streamActive = false ∧ s.videoSrcObject = false ∧
      s.wiredCode.isSome = true

/-- A resolved confirm panel: hidden with its info pane emptied. -/
def confirmCleared (s : ScannerState) : Prop :=
  s.ui.confirmPanelShown = false ∧ s.ui.confirmInfoHtml = ""

/-- Whether a validate/apply outcome is reported usable by the server:
`codigo === 0 && estado`. -/
def respValid : Except JsError ScanResponse → Bool
  | Except.ok data => data.codigo == 0 && data.estado
  | Except.error _ => false

/-- Network requests among a handler's actions. -/
def isPost : Action → Bool
  | Action.httpPost _ => true
  | _ => false

/-! ### Sample data for concrete runs -/

/-- A valid validate response. -/
def okRespSample : ScanResponse :=
  { codigo := 0, mensaje := "OK", code := "T1", estado := true, fechaUso := none,
    evento := "Ev", fechaEvento := "2025-01-01", titular := "Ana" }

/-- A successful apply response carrying a use timestamp. -/
def appliedRespSample : ScanResponse :=
  { codigo := 0, mensaje := "Usada", code := "T1", estado := true,
    fechaUso := some "2025-01-01T10:00", evento := "Ev",
    fechaEvento := "2025-01-01", titular := "Ana" }

/-- A failed apply response (e.g. another operator consumed the code). -/
def usedRespSample : ScanResponse :=
  { codigo := 1, mensaje := "Boleta ya usada", code := "T1", estado := false,
    fechaUso := some "2025-01-01T09:00", evento := "Ev",
    fechaEvento := "2025-01-01", titular := "Ana" }

/-- Scanning state: camera started from the initial state. -/
def scanningSample : ScannerState :=
  (step initState (Event.startClick (Except.ok ()))).fst

/-- Pending state: a fresh code decoded and validated as usable. -/
def pendingSample : ScannerState :=
  (step scanningSample (Event.decoded (some "T1") 5000 (Except.ok okRespSample))).fst

/-! ## Theorems -/

theorem lookupTime_setKey_self (mem : ScanMem) (v : String) (now : Nat) :
    lookupTime (setKey mem v now) v = some now := by
  induction mem with
  | nil => simp [setKey, lookupTime]
  | cons p rest ih =>
      obtain ⟨k, t⟩ := p
      by_cases h : k = v
      · simp [setKey, h, lookupTime]
      · simp [setKey, h, lookupTime, ih]

/-- Claim C2 as written fails on the code: a value that was never
processed is still suppressed whenever the current time is within
`ttlMs` of time zero, because the absent map entry defaults to `0`.
At `now = 0` with an empty memory, `seenRecently` answers `true` even
though the value was never processed before. -/
theorem c2_throttle_counterexample :
    (seenRecently 4000 [] "x" 0).fst = true ∧ lookupTime [] "x" = none := by
  constructor
  · rfl
  · rfl

/-- Claim C2 (amended): `seenRecently v` answers `true` exactly when `v`'s
recorded last-processed time — defaulting to `0` when `v` was never
recorded — is strictly less than `ttlMs` before the current time; when it
answers `false` the current time is recorded as `v`'s new last-processed
time (and the memory is untouched when it answers `true`); consequently,
for a value whose last processing is recorded at `t0`, the scan is
processed again exactly when at least `ttlMs` has elapsed since `t0`. -/
theorem c2_throttle_window (ttl : Nat) (mem : ScanMem) (v : String) (now : Nat) :
    ((seenRecently ttl mem v now).fst = true ↔
       (now : Int) - (((lookupTime mem v).getD 0 : Nat) : Int) < (ttl : Int))
  ∧ ((seenRecently ttl mem v now).fst = true → (seenRecently ttl mem v now).snd = mem)
  ∧ ((seenRecently ttl mem v now).fst = false →
       (seenRecently ttl mem v now).snd = setKey mem v now ∧
         lookupTime ((seenRecently ttl mem v now).snd) v = some now)
  ∧ (∀ t0, lookupTime mem v = some t0 →
       ((seenRecently ttl mem v now).fst = false ↔ (t0 : Int) + (ttl : Int) ≤ (now : Int))) := by
  unfold seenRecently
  by_cases h : (now : Int) - (((lookupTime mem v).getD 0 : Nat) : Int) < (ttl : Int)
  · refine ⟨by simp [h], by simp [h], by simp [h], ?_⟩
    intro t0 ht0
    rw [ht0] at h ⊢
    simp only [Option.getD_some] at h ⊢
    simp only [if_pos h]
    constructor
    · intro hfalse; cases hfalse
    · intro hle; omega
  · refine ⟨by simp [h], by simp [h], ?_, ?_⟩
    · intro _
      simp [h, lookupTime_setKey_self]
    · intro t0 ht0
      rw [ht0] at h ⊢
      simp only [Option.getD_some] at h ⊢
      simp only [if_neg h]
      constructor
      · intro _; omega
      · intro _; trivial

theorem c2_throttle_window_witness :
    (seenRecently 4000 [("x", 1000)] "x" 6000).fst = false ∧
      (seenRecently 4000 [("x", 1000)] "x" 3000).fst = true := by
  have h1 := c2_throttle_window 4000 [("x", 1000)] "x" 6000
  have h2 := c2_throttle_window 4000 [("x", 1000)] "x" 3000
  exact ⟨(h1.2.2.2 1000 (by rfl)).mpr (by decide),
         h2.1.mpr (by decide)⟩

/-- Claim C10: a decoded value with no recorded entry is treated as last
seen at time `0`, so once the current time is at least `ttlMs` the first
scan of any value is never suppressed; and after `clear()` empties the
memory, every value again has no recorded entry, so its next scan is
processed. -/
theorem c10_first_scan_processed (ttl now : Nat) (mem : ScanMem) (v : String)
    (hnone : lookupTime mem v = none) (hnow : ttl ≤ now) :
    (seenRecently ttl mem v now).fst = false
  ∧ (seenRecently ttl (clearMemory mem) v now).fst = false
  ∧ lookupTime (clearMemory mem) v = none := by
  refine ⟨?_, ?_, rfl⟩
  · unfold seenRecently
    rw [hnone]
    simp only [Option.getD_none, Nat.cast_zero, sub_zero]
    rw [if_neg (by exact_mod_cast Nat.not_lt.mpr hnow)]
  · unfold seenRecently clearMemory
    simp only [lookupTime, Option.getD_none, Nat.cast_zero, sub_zero]
    rw [if_neg (by exact_mod_cast Nat.not_lt.mpr hnow)]

theorem c10_first_scan_processed_witness :
    (seenRecently 4000 [("y", 9)] "x" 4000).fst = false
  ∧ (seenRecently 4000 (clearMemory [("y", 9)]) "x" 4000).fst = false
  ∧ lookupTime (clearMemory [("y", 9)]) "x" = none :=
  c10_first_scan_processed 4000 4000 [("y", 9)] "x" (by rfl) (by decide)

theorem firstBackMatch_eq_find? (ds : List MediaDeviceInfo) :
    firstBackMatch ds = ds.find? (fun d => backPattern (lowerOrEmpty d.label)) := by
  induction ds with
  | nil => rfl
  | cons d rest ih =>
      by_cases h : backPattern (lowerOrEmpty d.label) = true
      · simp [firstBackMatch, h, List.find?_cons_of_pos]
      · rw [Bool.not_eq_true] at h
        rw [firstBackMatch, if_neg (by simp [h]),
          List.find?_cons_of_neg _ (by simp [h]), ih]

/-- Claim C8: `chooseBackCamera` is total on every device list — it
returns the deviceId of the first device whose lowercased (null-defaulted)
label matches the back-camera pattern, otherwise the first device's
deviceId, and `none` (JS `undefined`, no throw) on the empty list; a
missing label behaves exactly like the empty-string label. -/
theorem c8_chooseBackCamera_total (ds : List MediaDeviceInfo) (id0 : String) :
    chooseBackCamera ([] : List MediaDeviceInfo) = none
  ∧ chooseBackCamera ds =
      (match firstBackMatch ds with
       | some d => some d.deviceId
       | none => (ds.head?).map (fun d => d.deviceId))
  ∧ chooseBackCamera ({ label := none, deviceId := id0 } :: ds) =
      chooseBackCamera ({ label := some "", deviceId := id0 } :: ds) := by
  refine ⟨rfl, ?_, rfl⟩
  rw [firstBackMatch_eq_find?]
  unfold chooseBackCamera
  cases hf : ds.find? (fun d => backPattern (lowerOrEmpty d.label)) with
  | some d' => simp [Option.orElse]
  | none => simp [Option.orElse]

theorem replAll_cons (c : Char) (rep : List Char) (a : Char) (l : List Char) :
    replAll c rep (a :: l) = (if a = c then rep else [a]) ++ replAll c rep l := by
  simp [replAll]

theorem escapeHtmlList_cons (a : Char) (l : List Char) :
    escapeHtmlList (a :: l) = escChar a ++ escapeHtmlList l := by
  by_cases h1 : a = '&'
  · subst h1; rfl
  by_cases h2 : a = '<'
  · subst h2; rfl
  by_cases h3 : a = '>'
  · subst h3; rfl
  by_cases h4 : a = '"'
  · subst h4; rfl
  by_cases h5 : a = '\''
  · subst h5; rfl
  · unfold escapeHtmlList escChar
    rw [replAll_cons, if_neg h1]
    rw [List.singleton_append, replAll_cons, if_neg h2]
    rw [List.singleton_append, replAll_cons, if_neg h3]
    rw [List.singleton_append, replAll_cons, if_neg h4]
    rw [List.singleton_append, replAll_cons, if_neg h5,
      if_neg h1, if_neg h2, if_neg h3, if_neg h4]

theorem escChar_noForbidden (a : Char) :
    (escChar a).all (fun c => !forbiddenChar c) = true := by
  by_cases h1 : a = '&'
  · subst h1; rfl
  by_cases h2 : a = '<'
  · subst h2; rfl
  by_cases h3 : a = '>'
  · subst h3; rfl
  by_cases h4 : a = '"'
  · subst h4; rfl
  by_cases h5 : a = '\''
  · subst h5; rfl
  · unfold escChar forbiddenChar
    rw [if_neg h1, if_neg h2, if_neg h3, if_neg h4, if_neg h5]
    simp [h2, h3, h4, h5]

theorem ampOk_escChar_append (a : Char) (m : List Char) :
    ampOk (escChar a ++ m) = ampOk m := by
  by_cases h1 : a = '&'
  · subst h1
    show ampOk ('&' :: 'a' :: 'm' :: 'p' :: ';' :: m) = ampOk m
    rw [ampOk, if_pos rfl, if_pos (by simp)]
    simp
  by_cases h2 : a = '<'
  · subst h2
    show ampOk ('&' :: 'l' :: 't' :: ';' :: m) = ampOk m
    rw [ampOk, if_pos rfl, if_neg (by simp), if_pos (by simp)]
    simp
  by_cases h3 : a = '>'
  · subst h3
    show ampOk ('&' :: 'g' :: 't' :: ';' :: m) = ampOk m
    rw [ampOk, if_pos rfl, if_neg (by simp), if_neg (by simp), if_pos (by simp)]
    simp
  by_cases h4 : a = '"'
  · subst h4
    show ampOk ('&' :: 'q' :: 'u' :: 'o' :: 't' :: ';' :: m) = ampOk m
    rw [ampOk, if_pos rfl, if_neg (by simp), if_neg (by simp), if_neg (by simp),
      if_pos (by simp)]
    simp
  by_cases h5 : a = '\''
  · subst h5
    show ampOk ('&' :: '#' :: '0' :: '3' :: '9' :: ';' :: m) = ampOk m
    rw [ampOk, if_pos rfl, if_neg (by simp), if_neg (by simp), if_neg (by simp),
      if_neg (by simp), if_pos (by simp)]
    simp
  · unfold escChar
    rw [if_neg h1, if_neg h2, if_neg h3, if_neg h4, if_neg h5]
    rw [List.singleton_append, ampOk, if_neg h1]

theorem escapeHtmlList_safe (l : List Char) :
    (escapeHtmlList l).all (fun c => !forbiddenChar c) = true ∧
      ampOk (escapeHtmlList l) = true := by
  induction l with
  | nil => exact ⟨rfl, by rw [show escapeHtmlList [] = [] from rfl, ampOk]⟩
  | cons a l ih =>
      rw [escapeHtmlList_cons]
      constructor
      · rw [List.all_append, ih.1, escChar_noForbidden a]
        rfl
      · rw [ampOk_escChar_append, ih.2]

theorem escapeHtml_not_mem_lt (t : String) : '<' ∉ (escapeHtml t).toList := by
  intro hmem
  have hall := (escapeHtmlList_safe t.toList).1
  rw [List.all_eq_true] at hall
  have := hall _ hmem
  simp [forbiddenChar] at this

/-- Claim C9: `escapeHtml`'s output never contains `<`, `>`, `"` or `'`,
and contains `&` only as the start of one of the five entities it introduces
(`&amp;`, `&lt;`, `&gt;`, `&quot;`, `&#039;`); consequently the details
card built from a validate response — every API field of which is passed
through `escapeHtml` — always contains exactly the 22 `<` characters of
the fixed template, whatever the server sends. -/
theorem c9_escapeHtml_markup_safe (s : String) (data : ScanResponse) :
    ((escapeHtml s).toList.all (fun c => !forbiddenChar c) = true)
  ∧ (ampOk (escapeHtml s).toList = true)
  ∧ ((validDetailsHtml data).toList.count '<' = 22) := by
  refine ⟨(escapeHtmlList_safe s.toList).1, (escapeHtmlList_safe s.toList).2, ?_⟩
  have hz : ∀ t : String, (escapeHtml t).data.count '<' = 0 := fun t =>
    List.count_eq_zero.mpr (escapeHtml_not_mem_lt t)
  show (validDetailsHtml data).data.count '<' = 22
  unfold validDetailsHtml
  simp only [String.data_append, List.count_append]
  rw [hz data.evento, hz data.fechaEvento, hz data.titular, hz data.code,
    hz data.mensaje]
  decide

theorem startCam_proj (s : ScannerState) (o : Except JsError Unit) :
    ((startCam s o).fst).ui.confirmPanelShown = s.ui.confirmPanelShown ∧
      ((startCam s o).fst).ui.confirmInfoHtml = s.ui.confirmInfoHtml ∧
      ((startCam s o).fst).wiredCode = s.wiredCode := by
  unfold startCam
  by_cases h : s.controlsActive = true
  · rw [if_pos h]; exact ⟨rfl, rfl, rfl⟩
  · rw [if_neg h]; cases o <;> exact ⟨rfl, rfl, rfl⟩

theorem validateCode_inv (s : ScannerState) (code : String)
    (resp : Except JsError ScanResponse) :
    cameraPausedInv (validateCode s code resp).fst := by
  unfold cameraPausedInv validateCode
  cases resp with
  | ok data =>
      dsimp only
      by_cases h : (data.codigo == 0 && data.estado) = true
      · rw [if_pos h]
        intro _
        exact ⟨rfl, rfl, rfl, rfl⟩
      · rw [Bool.not_eq_true] at h
        rw [if_neg (by simp [h])]
        intro hpanel
        cases hpanel
  | error e =>
      dsimp only
      by_cases h : (e.name == "AbortError") = true
      · rw [if_pos h]
        intro hpanel
        cases hpanel
      · rw [Bool.not_eq_true] at h
        rw [if_neg (by simp [h])]
        intro hpanel
        cases hpanel

theorem handleDecoded_inv (s : ScannerState) (value : Option String) (now : Nat)
    (resp : Except JsError ScanResponse) (hinv : cameraPausedInv s) :
    cameraPausedInv (handleDecoded s value now resp).fst := by
  unfold handleDecoded
  cases value with
  | none => exact hinv
  | some v =>
      dsimp only
      by_cases h : (seenRecently 4000 s.memory v now).fst = true
      · rw [if_pos h]
        exact hinv
      · rw [Bool.not_eq_true] at h
        rw [if_neg (by simp [h])]
        exact validateCode_inv _ v resp

theorem handleApprove_inv (s : ScannerState) (resp : Except JsError ScanResponse)
    (restart : Except JsError Unit) (hinv : cameraPausedInv s) :
    cameraPausedInv (handleApprove s resp restart).fst := by
  unfold handleApprove
  cases hw : s.wiredCode with
  | none => exact hinv
  | some code =>
      dsimp only
      by_cases h : (s.ui.confirmPanelShown && !s.ui.approveDisabled) = true
      · rw [if_pos h]
        intro hpanel
        exfalso
        unfold showCameraAndRestart at hpanel
        rw [(startCam_proj _ restart).1] at hpanel
        cases hpanel
      · rw [Bool.not_eq_true] at h
        rw [if_neg (by simp [h])]
        exact hinv

theorem handleDeny_inv (s : ScannerState) (restart : Except JsError Unit)
    (hinv : cameraPausedInv s) :
    cameraPausedInv (handleDeny s restart).fst := by
  unfold handleDeny
  cases hw : s.wiredCode with
  | none => exact hinv
  | some code =>
      dsimp only
      by_cases h : (s.ui.confirmPanelShown && !s.ui.denyDisabled) = true
      · rw [if_pos h]
        intro hpanel
        exfalso
        unfold showCameraAndRestart at hpanel
        rw [(startCam_proj _ restart).1] at hpanel
        cases hpanel
      · rw [Bool.not_eq_true] at h
        rw [if_neg (by simp [h])]
        exact hinv

theorem cameraPausedInv_step (s : ScannerState) (e : Event)
    (hinv : cameraPausedInv s)
    (hguard : s.ui.confirmPanelShown = true →
      (∀ o, e ≠ Event.startClick o) ∧ (∀ o, e ≠ Event.deviceChange o)) :
    cameraPausedInv (step s e).fst := by
  cases e with
  | startClick o =>
      unfold step
      dsimp only
      by_cases hb : s.ui.startBtnDisabled = true
      · rw [if_pos hb]; exact hinv
      · rw [Bool.not_eq_true] at hb
        rw [if_neg (by simp [hb])]
        intro hpanel
        rw [(startCam_proj s o).1] at hpanel
        exact absurd rfl ((hguard hpanel).1 o)
  | stopClick =>
      unfold step
      dsimp only
      by_cases hb : s.ui.stopBtnDisabled = true
      · rw [if_pos hb]; exact hinv
      · rw [Bool.not_eq_true] at hb
        rw [if_neg (by simp [hb])]
        intro hpanel
        exact ⟨rfl, rfl, rfl, (hinv hpanel).2.2.2⟩
  | deviceChange o =>
      intro hpanel
      exfalso
      have hp2 : ((step s (Event.deviceChange o)).fst).ui.confirmPanelShown
          = s.ui.confirmPanelShown := by
        show ((startCam (stopCam s).fst o).fst).ui.confirmPanelShown
          = s.ui.confirmPanelShown
        rw [(startCam_proj _ o).1]
        rfl
      rw [hp2] at hpanel
      exact absurd rfl ((hguard hpanel).2 o)
  | clearClick =>
      intro hpanel
      cases hpanel
  | decoded value now resp =>
      unfold step
      dsimp only
      by_cases hc : s.controlsActive = true
      · rw [if_pos hc]
        exact handleDecoded_inv s value now resp hinv
      · rw [Bool.not_eq_true] at hc
        rw [if_neg (by simp [hc])]
        exact hinv
  | approveClick resp restart =>
      show cameraPausedInv (handleApprove s resp restart).fst
      exact handleApprove_inv s resp restart hinv
  | denyClick restart =>
      show cameraPausedInv (handleDeny s restart).fst
      exact handleDeny_inv s restart hinv
  | destroyCall =>
      intro hpanel
      exact ⟨rfl, rfl, rfl, (hinv hpanel).2.2.2⟩

theorem reachableNoRestart_cameraPausedInv (s : ScannerState)
    (h : ReachableNoRestart s) : cameraPausedInv s := by
  induction h with
  | init => intro hp; cases hp
  | step s e hr hg ih => exact cameraPausedInv_step s e ih hg

/-- Claim C3 fails as stated: `pauseAndHideCamera` re-enables the start
button while the confirm panel is pending, so the operator can restart
the camera during the pending state.  Concretely, start the camera,
decode a valid code (panel shown, camera paused), then click start again:
the resulting state is reachable, still shows the confirm panel, and has
live decode controls, a live stream and a non-null video `srcObject`. -/
theorem c3_pending_camera_counterexample :
    Reachable (step pendingSample (Event.startClick (Except.ok ()))).fst
  ∧ (step pendingSample (Event.startClick (Except.ok ()))).fst.ui.confirmPanelShown
      = true
  ∧ (step pendingSample (Event.startClick (Except.ok ()))).fst.controlsActive = true
  ∧ (step pendingSample (Event.startClick (Except.ok ()))).fst.streamActive = true
  ∧ (step pendingSample (Event.startClick (Except.ok ()))).fst.videoSrcObject
      = true := by
  refine ⟨?_, by decide, by decide, by decide, by decide⟩
  exact Reachable.step _ _ (Reachable.step _ _ (Reachable.step _ _ Reachable.init))

/-- Claim C3 (amended): in every reachable state, at most one scan is
pending confirmation (the single `wiredCode` slot, occupied whenever the
panel is shown), and the camera is paused for the whole pending state —
decode controls stopped, stream tracks stopped, video `srcObject` null —
provided the operator does not press the start button and does not switch
camera device while the confirmation is pending (those two controls stay
enabled during the pending state and restart the camera). -/
theorem c3_pending_camera_paused (s : ScannerState)
    (hreach : ReachableNoRestart s) (hpanel : s.ui.confirmPanelShown = true) :
    s.controlsActive = false ∧ s.streamActive = false ∧ s.videoSrcObject = false ∧
      s.wiredCode.isSome = true :=
  reachableNoRestart_cameraPausedInv s hreach hpanel

theorem startCam_no_posts (s : ScannerState) (o : Except JsError Unit)
    (req : ScanRequest) : Action.httpPost req ∉ (startCam s o).snd := by
  unfold startCam
  by_cases h : s.controlsActive = true
  · rw [if_pos h]; simp
  · rw [if_neg h]; cases o <;> simp

theorem stopCam_no_posts (s : ScannerState) (req : ScanRequest) :
    Action.httpPost req ∉ (stopCam s).snd := by
  simp [stopCam]

theorem startCam_posts_iff (s : ScannerState) (o : Except JsError Unit)
    (req : ScanRequest) : (Action.httpPost req ∈ (startCam s o).snd) ↔ False :=
  iff_false_intro (startCam_no_posts s o req)

theorem validateCode_posts (s : ScannerState) (code : String)
    (resp : Except JsError ScanResponse) (req : ScanRequest)
    (hmem : Action.httpPost req ∈ (validateCode s code resp).snd) :
    req = { code := code, operatorId := 1, validateOnly := true } := by
  unfold validateCode at hmem
  cases resp with
  | ok data =>
      dsimp only at hmem
      by_cases h : (data.codigo == 0 && data.estado) = true
      · rw [if_pos h] at hmem
        simp [pauseAndHideCamera] at hmem
        exact hmem
      · rw [Bool.not_eq_true] at h
        rw [if_neg (by simp [h])] at hmem
        simp at hmem
        exact hmem
  | error e =>
      dsimp only at hmem
      by_cases h : (e.name == "AbortError") = true
      · rw [if_pos h] at hmem
        simp at hmem
        exact hmem
      · rw [Bool.not_eq_true] at h
        rw [if_neg (by simp [h])] at hmem
        simp at hmem
        exact hmem

theorem handleDecoded_posts (s : ScannerState) (value : Option String) (now : Nat)
    (resp : Except JsError ScanResponse) (req : ScanRequest)
    (hmem : Action.httpPost req ∈ (handleDecoded s value now resp).snd) :
    req.validateOnly = true := by
  unfold handleDecoded at hmem
  cases value with
  | none => cases hmem
  | some v =>
      dsimp only at hmem
      by_cases h : (seenRecently 4000 s.memory v now).fst = true
      · rw [if_pos h] at hmem
        simp at hmem
      · rw [Bool.not_eq_true] at h
        rw [if_neg (by simp [h])] at hmem
        simp only [List.mem_cons] at hmem
        rcases hmem with h1 | h1 | h1
        · cases h1
        · cases h1
        · rw [validateCode_posts _ _ _ _ h1]

theorem handleApprove_posts (s : ScannerState) (resp : Except JsError ScanResponse)
    (restart : Except JsError Unit) (req : ScanRequest)
    (hmem : Action.httpPost req ∈ (handleApprove s resp restart).snd) :
    s.ui.confirmPanelShown = true ∧ s.ui.approveDisabled = false ∧
      s.wiredCode = some req.code ∧ req.operatorId = 1 ∧
      req.validateOnly = false := by
  unfold handleApprove at hmem
  cases hw : s.wiredCode with
  | none => rw [hw] at hmem; cases hmem
  | some code =>
      rw [hw] at hmem
      dsimp only at hmem
      by_cases hg : (s.ui.confirmPanelShown && !s.ui.approveDisabled) = true
      · rw [if_pos hg] at hmem
        have hg2 := hg
        simp only [Bool.and_eq_true, Bool.not_eq_true'] at hg2
        obtain ⟨hpanel, hdis⟩ := hg2
        have hreq : req = { code := code, operatorId := 1, validateOnly := false } := by
          cases resp with
          | ok applied =>
              dsimp only at hmem
              by_cases hv : (applied.codigo == 0 && applied.estado) = true
              · rw [if_pos hv] at hmem
                simp only [showCameraAndRestart] at hmem
                simp [startCam_posts_iff] at hmem
                exact hmem
              · rw [Bool.not_eq_true] at hv
                rw [if_neg (by simp [hv])] at hmem
                simp only [showCameraAndRestart] at hmem
                simp [startCam_posts_iff] at hmem
                exact hmem
          | error e =>
              dsimp only at hmem
              by_cases hv : (e.name == "AbortError") = true
              · rw [if_pos hv] at hmem
                simp only [showCameraAndRestart] at hmem
                simp [startCam_posts_iff] at hmem
                exact hmem
              · rw [Bool.not_eq_true] at hv
                rw [if_neg (by simp [hv])] at hmem
                simp only [showCameraAndRestart] at hmem
                simp [startCam_posts_iff] at hmem
                exact hmem
        refine ⟨hpanel, hdis, ?_, ?_, ?_⟩ <;> rw [hreq]
      · rw [if_neg hg] at hmem
        cases hmem

theorem handleDeny_no_posts (s : ScannerState) (restart : Except JsError Unit)
    (req : ScanRequest) : Action.httpPost req ∉ (handleDeny s restart).snd := by
  intro hmem
  unfold handleDeny at hmem
  cases hw : s.wiredCode with
  | none => rw [hw] at hmem; cases hmem
  | some code =>
      rw [hw] at hmem
      dsimp only at hmem
      by_cases hg : (s.ui.confirmPanelShown && !s.ui.denyDisabled) = true
      · rw [if_pos hg] at hmem
        simp only [showCameraAndRestart] at hmem
        simp [startCam_posts_iff] at hmem
      · rw [if_neg hg] at hmem
        cases hmem

theorem handleClear_no_posts (s : ScannerState) (req : ScanRequest) :
    Action.httpPost req ∉ (handleClear s).snd := by
  simp [handleClear]

/-- Claim C1: an apply request — a `postScan` call with
`validateOnly = false` — is produced only by an approve-button click taken
while the confirm panel is displayed for the currently wired pending code;
every other event either posts nothing or posts a validate request, and in
particular a deny click performs no network request at all, so the ticket
is not consumed. -/
theorem c1_apply_only_after_approve (s : ScannerState) (e : Event)
    (req : ScanRequest) :
    (Action.httpPost req ∈ (step s e).snd → req.validateOnly = false →
       ∃ resp restart, e = Event.approveClick resp restart ∧
         s.ui.confirmPanelShown = true ∧ s.ui.approveDisabled = false ∧
         s.wiredCode = some req.code)
  ∧ (∀ restart, Action.httpPost req ∉ (step s (Event.denyClick restart)).snd) := by
  constructor
  · intro hmem hval
    cases e with
    | startClick o =>
        unfold step at hmem
        dsimp only at hmem
        by_cases hb : s.ui.startBtnDisabled = true
        · rw [if_pos hb] at hmem; cases hmem
        · rw [Bool.not_eq_true] at hb
          rw [if_neg (by simp [hb])] at hmem
          exact absurd hmem (startCam_no_posts s o req)
    | stopClick =>
        unfold step at hmem
        dsimp only at hmem
        by_cases hb : s.ui.stopBtnDisabled = true
        · rw [if_pos hb] at hmem; cases hmem
        · rw [Bool.not_eq_true] at hb
          rw [if_neg (by simp [hb])] at hmem
          exact absurd hmem (stopCam_no_posts s req)
    | deviceChange o =>
        unfold step at hmem
        dsimp only at hmem
        rcases List.mem_append.mp hmem with h1 | h1
        · exact absurd h1 (stopCam_no_posts s req)
        · exact absurd h1 (startCam_no_posts _ o req)
    | clearClick =>
        exact absurd hmem (handleClear_no_posts s req)
    | decoded value now resp =>
        unfold step at hmem
        dsimp only at hmem
        by_cases hc : s.controlsActive = true
        · rw [if_pos hc] at hmem
          have := handleDecoded_posts s value now resp req hmem
          rw [hval] at this
          cases this
        · rw [Bool.not_eq_true] at hc
          rw [if_neg (by simp [hc])] at hmem
          cases hmem
    | approveClick resp restart =>
        obtain ⟨h1, h2, h3, _, _⟩ := handleApprove_posts s resp restart req hmem
        exact ⟨resp, restart, rfl, h1, h2, h3⟩
    | denyClick restart =>
        exact absurd hmem (handleDeny_no_posts s restart req)
    | destroyCall =>
        exact absurd hmem (stopCam_no_posts _ req)
  · intro restart
    exact handleDeny_no_posts s restart req

/-- Claim C4: the confirm/deny decision state lives in the single confirm
panel tied to the one wired pending code, and it is cleared — panel
hidden, info emptied — on every resolution of that scan: after an approve
click whatever the apply call's outcome (success, server refusal, thrown
error, even an abort), after a deny click, and after a validate exchange
that does not end in a pending confirmation (server refusal or error). -/
theorem c4_confirm_cleared_on_resolution (s : ScannerState)
    (resp : Except JsError ScanResponse) (restart : Except JsError Unit)
    (v : String) (now : Nat) :
    (s.ui.confirmPanelShown = true → s.ui.approveDisabled = false →
       s.wiredCode.isSome = true →
       confirmCleared (step s (Event.approveClick resp restart)).fst)
  ∧ (s.ui.confirmPanelShown = true → s.ui.denyDisabled = false →
       s.wiredCode.isSome = true →
       confirmCleared (step s (Event.denyClick restart)).fst)
  ∧ (s.controlsActive = true → (seenRecently 4000 s.memory v now).fst = false →
       respValid resp = false →
       confirmCleared (step s (Event.decoded (some v) now resp)).fst) := by
  refine ⟨?_, ?_, ?_⟩
  · intro hpanel hdis hwi
    obtain ⟨code, hw⟩ := Option.isSome_iff_exists.mp hwi
    unfold step handleApprove
    rw [hw]
    dsimp only
    rw [if_pos (by rw [hpanel, hdis]; rfl)]
    unfold showCameraAndRestart
    dsimp only
    refine ⟨?_, ?_⟩
    · rw [(startCam_proj _ restart).1]
      rfl
    · rw [(startCam_proj _ restart).2.1]
      rfl
  · intro hpanel hdis hwi
    obtain ⟨code, hw⟩ := Option.isSome_iff_exists.mp hwi
    unfold step handleDeny
    rw [hw]
    dsimp only
    rw [if_pos (by rw [hpanel, hdis]; rfl)]
    unfold showCameraAndRestart
    dsimp only
    refine ⟨?_, ?_⟩
    · rw [(startCam_proj _ restart).1]
      rfl
    · rw [(startCam_proj _ restart).2.1]
      rfl
  · intro hc hfresh hrv
    cases resp with
    | ok data =>
        simp only [respValid] at hrv
        simp [step, handleDecoded, validateCode, confirmCleared, hc, hfresh, hrv]
    | error e =>
        by_cases ha : (e.name == "AbortError") = true <;>
          simp [step, handleDecoded, validateCode, confirmCleared, hc, hfresh, ha]

theorem c4_confirm_cleared_on_resolution_witness :
    confirmCleared
      (step pendingSample
        (Event.approveClick (Except.ok appliedRespSample) (Except.ok ()))).fst
  ∧ confirmCleared (step pendingSample (Event.denyClick (Except.ok ()))).fst
  ∧ confirmCleared
      (step scanningSample
        (Event.decoded (some "T1") 5000 (Except.ok usedRespSample))).fst := by
  have h1 := c4_confirm_cleared_on_resolution pendingSample
    (Except.ok appliedRespSample) (Except.ok ()) "T1" 5000
  have h2 := c4_confirm_cleared_on_resolution scanningSample
    (Except.ok usedRespSample) (Except.ok ()) "T1" 5000
  exact ⟨h1.1 (by decide) (by decide) (by decide),
         h1.2.1 (by decide) (by decide) (by decide),
         h2.2.2 (by decide) (by decide) (by decide)⟩

/-- Claim C5: a fresh decoded value is processed in the source's fixed
order — duplicate-suppression check, then (not suppressed) the validate
post, then the ticket details render and the confirm panel display with
the camera paused in between, then the machine rests with the panel shown
awaiting the operator, and an approve click then performs the apply post,
the final render, the panel clear and only then the camera resume; the
two action traces below are exactly the handlers' program order. -/
theorem c5_pipeline_order (s : ScannerState) (v : String) (now : Nat)
    (data applied : ScanResponse)
    (hc : s.controlsActive = true)
    (hdis : s.ui.approveDisabled = false)
    (hfresh : (seenRecently 4000 s.memory v now).fst = false)
    (hvalid : (data.codigo == 0 && data.estado) = true)
    (happlied : (applied.codigo == 0 && applied.estado) = true) :
    (step s (Event.decoded (some v) now (Except.ok data))).snd =
      [Action.suppressCheck v false, Action.beep,
       Action.renderStatus StatusKind.info "Validando boleta...",
       Action.hidePanel, Action.renderDetails "",
       Action.httpPost { code := v, operatorId := 1, validateOnly := true },
       Action.renderStatus StatusKind.ok "✅ Válida. Confirma ingreso.",
       Action.renderDetails (validDetailsHtml data), Action.beep,
       Action.pauseCamera, Action.renderStatus StatusKind.info "Cámara en pausa.",
       Action.showPanel (confirmHtml data)]
  ∧ ((step s (Event.decoded (some v) now (Except.ok data))).fst).ui.confirmPanelShown
      = true
  ∧ (step (step s (Event.decoded (some v) now (Except.ok data))).fst
        (Event.approveClick (Except.ok applied) (Except.ok ()))).snd =
      [Action.renderStatus StatusKind.info "Aplicando ingreso...",
       Action.httpPost { code := v, operatorId := 1, validateOnly := false },
       Action.renderStatus StatusKind.ok "🎟️ Boleta usada correctamente.",
       Action.renderDetails (appliedDetailsHtml applied),
       Action.hidePanel,
       Action.renderStatus StatusKind.info "Iniciando cámara...",
       Action.resumeCamera,
       Action.renderStatus StatusKind.ok "Escaneando... apunta el QR"] := by
  refine ⟨?_, ?_, ?_⟩ <;>
    simp [step, handleDecoded, validateCode, pauseAndHideCamera, showConfirm,
      hideConfirm, handleApprove, showCameraAndRestart, startCam,
      hc, hdis, hfresh, hvalid, happlied]

theorem c5_pipeline_order_witness :
    (step scanningSample (Event.decoded (some "T1") 5000 (Except.ok okRespSample))).snd =
      [Action.suppressCheck "T1" false, Action.beep,
       Action.renderStatus StatusKind.info "Validando boleta...",
       Action.hidePanel, Action.renderDetails "",
       Action.httpPost { code := "T1", operatorId := 1, validateOnly := true },
       Action.renderStatus StatusKind.ok "✅ Válida. Confirma ingreso.",
       Action.renderDetails (validDetailsHtml okRespSample), Action.beep,
       Action.pauseCamera, Action.renderStatus StatusKind.info "Cámara en pausa.",
       Action.showPanel (confirmHtml okRespSample)] :=
  (c5_pipeline_order scanningSample "T1" 5000 okRespSample appliedRespSample
    (by decide) (by decide) (by decide) (by decide) (by decide)).1

/-- Claim C6: for every fresh scanned code the single network call of the
decode step is the validate request (`validateOnly = true`), and its
response decides the branch — exactly when `codigo = 0` and `estado` is
true, the details card with the event name, event date, holder, code and
message is rendered and the confirm panel is shown; otherwise the
"No válida" error status with the server's message is shown together
with the error details and no confirm panel appears. -/
theorem c6_validate_branches (s : ScannerState) (v : String) (now : Nat)
    (data : ScanResponse) (hc : s.controlsActive = true)
    (hfresh : (seenRecently 4000 s.memory v now).fst = false) :
    ((step s (Event.decoded (some v) now (Except.ok data))).snd.filter isPost =
       [Action.httpPost { code := v, operatorId := 1, validateOnly := true }])
  ∧ ((data.codigo == 0 && data.estado) = true →
       ((step s (Event.decoded (some v) now (Except.ok data))).fst.ui.detailsHtml
           = validDetailsHtml data
        ∧ (step s (Event.decoded (some v) now (Except.ok data))).fst.ui.confirmPanelShown
           = true
        ∧ (step s (Event.decoded (some v) now (Except.ok data))).fst.ui.confirmInfoHtml
           = confirmHtml data))
  ∧ ((data.codigo == 0 && data.estado) = false →
       ((step s (Event.decoded (some v) now (Except.ok data))).fst.ui.statusKind
           = StatusKind.err
        ∧ (step s (Event.decoded (some v) now (Except.ok data))).fst.ui.statusMsg
           = "⛔ No válida: " ++ escapeHtml data.mensaje
        ∧ (step s (Event.decoded (some v) now (Except.ok data))).fst.ui.detailsHtml
           = invalidDetailsHtml data
        ∧ (step s (Event.decoded (some v) now (Except.ok data))).fst.ui.confirmPanelShown
           = false)) := by
  refine ⟨?_, ?_, ?_⟩
  · by_cases hv : (data.codigo == 0 && data.estado) = true <;>
      simp [step, handleDecoded, validateCode, pauseAndHideCamera, showConfirm,
        isPost, hc, hfresh, hv]
  · intro hv
    simp [step, handleDecoded, validateCode, pauseAndHideCamera, showConfirm,
      hc, hfresh, hv]
  · intro hv
    simp [step, handleDecoded, validateCode, hc, hfresh, hv]

theorem c6_validate_branches_witness :
    ((step scanningSample
        (Event.decoded (some "T1") 5000 (Except.ok okRespSample))).snd.filter isPost =
       [Action.httpPost { code := "T1", operatorId := 1, validateOnly := true }])
  ∧ ((step scanningSample
        (Event.decoded (some "T2") 5000 (Except.ok usedRespSample))).fst.ui.statusMsg
       = "⛔ No válida: " ++ escapeHtml usedRespSample.mensaje) := by
  have h1 := c6_validate_branches scanningSample "T1" 5000 okRespSample
    (by decide) (by decide)
  have h2 := c6_validate_branches scanningSample "T2" 5000 usedRespSample
    (by decide) (by decide)
  exact ⟨h1.1, (h2.2.2 (by decide)).2.1⟩

/-- Claim C7: after approval, when the apply call returns a valid
response (`codigo = 0`, `estado` true) the success status is rendered and
the details card carrying the server's message and the use timestamp
(`fechaUso`) is installed; when it reports failure (e.g. the code was
already consumed) the error status carrying the server's message is
rendered instead; in both cases the confirm panel is cleared and the
camera is resumed afterwards. -/
theorem c7_apply_outcomes (s : ScannerState) (applied : ScanResponse)
    (hpanel : s.ui.confirmPanelShown = true) (hdis : s.ui.approveDisabled = false)
    (hw : s.wiredCode.isSome = true) (hcam : s.controlsActive = false) :
    ((applied.codigo == 0 && applied.estado) = true →
       (Action.renderStatus StatusKind.ok "🎟️ Boleta usada correctamente."
           ∈ (step s (Event.approveClick (Except.ok applied) (Except.ok ()))).snd
        ∧ (step s (Event.approveClick (Except.ok applied) (Except.ok ()))).fst.ui.detailsHtml
           = appliedDetailsHtml applied))
  ∧ ((applied.codigo == 0 && applied.estado) = false →
       Action.renderStatus StatusKind.err
           ("⛔ No se pudo usar: " ++ escapeHtml applied.mensaje)
         ∈ (step s (Event.approveClick (Except.ok applied) (Except.ok ()))).snd)
  ∧ confirmCleared (step s (Event.approveClick (Except.ok applied) (Except.ok ()))).fst
  ∧ Action.hidePanel ∈ (step s (Event.approveClick (Except.ok applied) (Except.ok ()))).snd
  ∧ Action.resumeCamera
      ∈ (step s (Event.approveClick (Except.ok applied) (Except.ok ()))).snd
  ∧ (step s (Event.approveClick (Except.ok applied) (Except.ok ()))).fst.controlsActive
      = true := by
  obtain ⟨code, hwc⟩ := Option.isSome_iff_exists.mp hw
  by_cases hv : (applied.codigo == 0 && applied.estado) = true
  · refine ⟨fun _ => ⟨?_, ?_⟩, fun hv2 => absurd hv (by rw [hv2]; exact Bool.false_ne_true),
      ?_, ?_, ?_, ?_⟩ <;>
      simp [step, handleApprove, showCameraAndRestart, startCam, hideConfirm,
        confirmCleared, hpanel, hdis, hwc, hcam, hv]
  · rw [Bool.not_eq_true] at hv
    refine ⟨fun hv2 => absurd hv2 (by rw [hv]; exact Bool.false_ne_true),
      fun _ => ?_, ?_, ?_, ?_, ?_⟩ <;>
      simp [step, handleApprove, showCameraAndRestart, startCam, hideConfirm,
        confirmCleared, hpanel, hdis, hwc, hcam, hv]

theorem c7_apply_outcomes_witness :
    ((step pendingSample
         (Event.approveClick (Except.ok appliedRespSample) (Except.ok ()))).fst.ui.detailsHtml
       = appliedDetailsHtml appliedRespSample)
  ∧ confirmCleared
      (step pendingSample
        (Event.approveClick (Except.ok appliedRespSample) (Except.ok ()))).fst
  ∧ (Action.renderStatus StatusKind.err
        ("⛔ No se pudo usar: " ++ escapeHtml usedRespSample.mensaje)
      ∈ (step pendingSample
          (Event.approveClick (Except.ok usedRespSample) (Except.ok ()))).snd) := by
  have h1 := c7_apply_outcomes pendingSample appliedRespSample
    (by decide) (by decide) (by decide) (by decide)
  have h2 := c7_apply_outcomes pendingSample usedRespSample
    (by decide) (by decide) (by decide) (by decide)
  exact ⟨(h1.1 (by decide)).2, h1.2.2.1, h2.2.1 (by decide)⟩

theorem c1_apply_only_after_approve_witness :
    ∃ resp restart,
      Event.approveClick (Except.ok appliedRespSample) (Except.ok ())
        = Event.approveClick resp restart ∧
      pendingSample.ui.confirmPanelShown = true ∧
      pendingSample.ui.approveDisabled = false ∧
      pendingSample.wiredCode = some "T1" :=
  (c1_apply_only_after_approve pendingSample
      (Event.approveClick (Except.ok appliedRespSample) (Except.ok ()))
      { code := "T1", operatorId := 1, validateOnly := false }).1
    (by decide) rfl

theorem c3_pending_camera_paused_witness :
    pendingSample.controlsActive = false ∧ pendingSample.streamActive = false ∧
      pendingSample.videoSrcObject = false ∧ pendingSample.wiredCode.isSome = true :=
  c3_pending_camera_paused pendingSample
    (ReachableNoRestart.step _ _
      (ReachableNoRestart.step _ _ ReachableNoRestart.init
        (fun hp => absurd hp (by decide)))
      (fun hp => absurd hp (by decide)))
    (by decide)

end BoletasQR
